import Mathlib

/-!
Shallow embedding of the chat-proxy server (`src/server.js`, the
compare-capable variant): request validation, parameter normalization,
the upstream caller, the single-chat endpoint with its error classifier,
and the compare fan-out endpoint.

JavaScript conventions modelled explicitly:
* a possibly-absent string field is `Option String`; JS truthiness of a
  string field (`!x`) is `jsTruthyStr` (absent or empty string is falsy);
* `a || b` on strings is `jsOr`;
* a body field that must be an array is `JsArr` (missing / present but
  not an array / an array);
* numbers are `ℚ` (the server only compares, clamps and forwards them);
* the upstream HTTP call is an oracle argument (`AxiosOutcome` for the
  chat path, `Nat → AxiosOutcome` indexed by fan-out leg for compare);
* every handler returns, besides the response, the list of upstream
  requests actually issued, so "no network call is attempted" is the
  statement that this list is empty;
* `Promise.all` resolution is modelled by `settleAll`: legs complete in
  an arbitrary order (a permutation of the leg indices) and each writes
  its result into its own slot of the result array.
-/

namespace ChatGui

/-- JS truthiness of a possibly-absent string field: `undefined` and `""` are falsy. -/
def jsTruthyStr : Option String → Bool
  | none => false
  | some s => s ≠ ""

/-- JS `a || b` for two strings: `a` unless it is falsy (empty). -/
def jsOrS (a b : String) : String := if a = "" then b else a

/-- JS `a || b` where `a` is a possibly-absent string field. -/
def jsOr (a : Option String) (b : String) : String :=
  match a with
  | none => b
  | some s => jsOrS s b

/-- A chat message as found in a raw request body: either field may be missing. -/
structure Msg where
  role : Option String
  content : Option String
deriving Repr, DecidableEq

/-- Endpoint-level message check, `!msg.role || !msg.content` negated:
both fields present and non-empty. -/
def msgFormatOk (m : Msg) : Bool := jsTruthyStr m.role && jsTruthyStr m.content

/-- `["user", "assistant", "system"].includes(msg.role)`. -/
def roleAllowed (m : Msg) : Bool :=
  m.role == some "user" || m.role == some "assistant" || m.role == some "system"

/-- A request-body field that the server expects to be an array. -/
inductive JsArr (α : Type) where
  | missing
  | notArray
  | arr (xs : List α)
deriving Repr, DecidableEq

/-- `!messages || !Array.isArray(messages) || messages.length === 0`. -/
def JsArr.invalid : JsArr α → Bool
  | .missing => true
  | .notArray => true
  | .arr xs => xs.isEmpty

/-- One entry of the `choices` array of the upstream payload. -/
structure Choice where
  content : String
  finish_reason : Option String
deriving Repr, DecidableEq

/-- The upstream 2xx payload: `choices`, `usage` (opaque pass-through,
kept as a string), and the model identifier the upstream reports (which
the server never reads). -/
structure RespData where
  choices : Option (List Choice)
  usage : Option String
  model : Option String
deriving Repr, DecidableEq

/-- Outcome of one `axios.post` to the upstream service. -/
inductive AxiosOutcome where
  /-- 2xx response with a payload. -/
  | ok (data : RespData)
  /-- Non-2xx response: `error.response` is set; carries the HTTP status
  and the nested `data?.error?.message`. -/
  | httpError (stat : Nat) (dataErrMsg : Option String)
  /-- No response received: `error.code` (e.g. `ECONNABORTED`) and `error.message`. -/
  | transport (code : String) (msg : String)
deriving Repr, DecidableEq

/-- The request body actually sent upstream by one `axios.post`. -/
structure UpstreamReq where
  model : String
  messages : List Msg
  max_tokens : ℚ
  temperature : ℚ
deriving Repr, DecidableEq

/-- Successful result of `callOpenRouter`. -/
structure CallOk where
  message : String
  usage : String
  finish_reason : Option String
deriving Repr, DecidableEq

/-- Error thrown by `callOpenRouter`, after its own catch block re-wraps. -/
inductive CallErr where
  /-- One of the two message-validation `throw new Error(...)` at the top. -/
  | badMessages (msg : String)
  /-- Re-thrown with `err.status` and `err.data` when `error.response` was set. -/
  | upstream (stat : Nat) (dataErrMsg : Option String)
  /-- Transport failure re-thrown unchanged: `error.code`, `error.message`. -/
  | transport (code : String) (msg : String)
  /-- `throw new Error("Unexpected response format from OpenRouter")`. -/
  | unexpectedFormat
deriving Repr, DecidableEq

/-- The `.message` of a `CallErr`, as JS would read it. -/
def CallErr.message : CallErr → String
  | .badMessages m => m
  | .upstream _ dm => jsOr dm "OpenRouter API error"
  | .transport _ m => m
  | .unexpectedFormat => "Unexpected response format from OpenRouter"

/-- The `.status` of a `CallErr` (only set by the `error.response` re-wrap). -/
def CallErr.statusField : CallErr → Option Nat
  | .upstream s _ => some s
  | _ => none

/-- The per-message validation loop inside `callOpenRouter`: the message
of the first `throw`, if any.  Each message is checked for role/content
presence first, then for role membership. -/
def validateMessages (xs : List Msg) : Option String :=
  xs.findSome? fun m =>
    if !msgFormatOk m then some "Each message must have role and content"
    else if !roleAllowed m then some "Message role must be user, assistant, or system"
    else none

/-- `callOpenRouter(messages, model, maxTokens, temperature)`: validates the
conversation, issues exactly one upstream call, extracts the reply.
Returns the result together with the list of upstream requests issued
(empty when validation throws before the call). -/
def callOpenRouter (messages : JsArr Msg) (model : String) (maxTokens temperature : ℚ)
    (outcome : AxiosOutcome) : Except CallErr CallOk × List UpstreamReq :=
  match messages with
  | .missing => (.error (.badMessages "Messages must be a non-empty array"), [])
  | .notArray => (.error (.badMessages "Messages must be a non-empty array"), [])
  | .arr xs =>
    if xs.isEmpty then (.error (.badMessages "Messages must be a non-empty array"), [])
    else
      match validateMessages xs with
      | some m => (.error (.badMessages m), [])
      | none =>
        let req : UpstreamReq :=
          { model := model, messages := xs, max_tokens := maxTokens,
            temperature := temperature }
        match outcome with
        | .ok data =>
          match data.choices with
          | some (c :: _) =>
            (.ok { message := c.content, usage := (data.usage).getD "\x7b\x7d",
                   finish_reason := c.finish_reason }, [req])
          | some [] => (.error .unexpectedFormat, [req])
          | none => (.error .unexpectedFormat, [req])
        | .httpError s dm => (.error (.upstream s dm), [req])
        | .transport c m => (.error (.transport c m), [req])

/-- The client-facing error taxonomy; each kind renders to the literal
`error` string the server writes into the JSON error object. -/
inductive ErrorKind where
  | InvalidRequest
  | InvalidMessage
  | TooManyModels
  | ConfigurationError
  | AuthenticationFailed
  | PaymentRequired
  | RateLimitExceeded
  | ModelNotFound
  | BadRequest
  | GatewayTimeout
  | ServiceUnavailable
  | UpstreamError
  | InternalError
deriving Repr, DecidableEq

/-- The literal `error` field string of each kind in the JSON written by the server. -/
def ErrorKind.label : ErrorKind → String
  | .InvalidRequest => "Invalid request"
  | .InvalidMessage => "Invalid message format"
  | .TooManyModels => "Too many models"
  | .ConfigurationError => "Server configuration error"
  | .AuthenticationFailed => "Authentication failed"
  | .PaymentRequired => "Payment required"
  | .RateLimitExceeded => "Rate limit exceeded"
  | .ModelNotFound => "Model not found"
  | .BadRequest => "Bad request"
  | .GatewayTimeout => "Gateway timeout"
  | .ServiceUnavailable => "Service unavailable"
  | .UpstreamError => "OpenRouter API error"
  | .InternalError => "Internal server error"

/-- `max_tokens && max_tokens > 0 ? Math.min(max_tokens, 4000) : 1000`
(an absent or numerically falsy or non-positive value defaults to 1000). -/
def validatedMaxTokens : Option ℚ → ℚ
  | none => 1000
  | some x => if x ≠ 0 ∧ 0 < x then min x 4000 else 1000

/-- `temperature !== undefined ? Math.max(0, Math.min(temperature, 2)) : 0.7`. -/
def validatedTemperature : Option ℚ → ℚ
  | none => 7/10
  | some t => max 0 (min t 2)

/-- `model || DEFAULT_MODEL`. -/
def selectedModel (model : Option String) (defaultModel : String) : String :=
  jsOr model defaultModel

/-- Process configuration read at startup. -/
structure Config where
  apiKey : Option String
  defaultModel : String

/-- The catch block of the chat endpoint: maps a `CallErr` to the client-facing
(status, error kind, message) triple.  Follows the source order:
`error.status` truthiness first, then `error.code`, then the 500 fallback. -/
def classify : CallErr → Nat × ErrorKind × String
  | .upstream s dm =>
    if s ≠ 0 then
      if s = 401 then (401, .AuthenticationFailed, "Invalid OpenRouter API key")
      else if s = 402 then (402, .PaymentRequired, "Insufficient credits on OpenRouter account")
      else if s = 429 then (429, .RateLimitExceeded, "Too many requests to OpenRouter API")
      else if s = 404 then (404, .ModelNotFound, "The specified model is not available")
      else if s = 400 then (400, .BadRequest, jsOr dm "Invalid request to OpenRouter API")
      else (s, .UpstreamError, jsOr dm "Unknown error occurred")
    else (500, .InternalError, jsOr dm "OpenRouter API error")
  | .transport c m =>
    if c = "ECONNABORTED" ∨ c = "ETIMEDOUT" then
      (504, .GatewayTimeout, "Request to OpenRouter API timed out")
    else if c = "ECONNREFUSED" ∨ c = "ENOTFOUND" then
      (503, .ServiceUnavailable, "Unable to reach OpenRouter API")
    else (500, .InternalError, m)
  | .badMessages m => (500, .InternalError, m)
  | .unexpectedFormat => (500, .InternalError, "Unexpected response format from OpenRouter")

/-- Raw body of `POST /api/chat`. -/
structure ChatBody where
  messages : JsArr Msg
  model : Option String
  max_tokens : Option ℚ
  temperature : Option ℚ

/-- Response of `POST /api/chat`: an error object or the success JSON
(which carries a literal `success: true`). -/
inductive ChatResp where
  | err (stat : Nat) (kind : ErrorKind) (message : String)
  | ok (success : Bool) (message : String) (model : String) (usage : String)
       (finish_reason : Option String)
deriving Repr, DecidableEq

/-- The `POST /api/chat` handler.  Returns the response and the list of
upstream requests issued. -/
def chatHandler (cfg : Config) (body : ChatBody) (outcome : AxiosOutcome) :
    ChatResp × List UpstreamReq :=
  if body.messages.invalid then
    (.err 400 .InvalidRequest "Messages array is required and must not be empty", [])
  else
    match body.messages with
    | .arr xs =>
      match xs.find? (fun m => !msgFormatOk m) with
      | some _ =>
        (.err 400 .InvalidMessage "Each message must have role and content fields", [])
      | none =>
        if !jsTruthyStr cfg.apiKey then
          (.err 500 .ConfigurationError "OpenRouter API key not configured", [])
        else
          let model := selectedModel body.model cfg.defaultModel
          let mt := validatedMaxTokens body.max_tokens
          let tp := validatedTemperature body.temperature
          let call := callOpenRouter body.messages model mt tp outcome
          (match call.1 with
           | .ok r => .ok true r.message model r.usage r.finish_reason
           | .error e => .err (classify e).1 (classify e).2.1 (classify e).2.2,
           call.2)
    | _ => (.err 400 .InvalidRequest "Messages array is required and must not be empty", [])

/-- The `error_type` field of a failing compare leg:
`error.status || "unknown"`. -/
inductive ErrType where
  | stat (n : Nat)
  | unknown
deriving Repr, DecidableEq

/-- One entry of the `results` array of the compare response. -/
structure LegResult where
  success : Bool
  model : String
  message : String
  usage : Option String
  finish_reason : Option String
  error : Bool
  error_type : Option ErrType
deriving Repr, DecidableEq

instance : Inhabited LegResult :=
  ⟨{ success := false, model := "", message := "", usage := none,
     finish_reason := none, error := false, error_type := none }⟩

/-- The `.then`/`.catch` wrapper around the `callOpenRouter` invocation of one fan-out leg. -/
def mkLeg (model : String) (r : Except CallErr CallOk) : LegResult :=
  match r with
  | .ok ok =>
    { success := true, model := model, message := ok.message,
      usage := some ok.usage, finish_reason := ok.finish_reason,
      error := false, error_type := none }
  | .error e =>
    { success := false, model := model, message := jsOrS e.message "Request failed",
      usage := none, finish_reason := none, error := true,
      error_type := some (match e.statusField with
        | some s => if s ≠ 0 then .stat s else .unknown
        | none => .unknown) }

/-- Raw body of `POST /api/compare`. -/
structure CompareBody where
  messages : JsArr Msg
  models : JsArr String
  max_tokens : Option ℚ
  temperature : Option ℚ

/-- Response of `POST /api/compare`. -/
inductive CompareResp where
  | err (stat : Nat) (kind : ErrorKind) (message : String)
  | ok (success : Bool) (results : List LegResult)
deriving Repr, DecidableEq

/-- `Promise.all` resolution: `n` legs complete in the order given by
`order` (a list of leg indices); each completion writes its value
into its own slot of an `n`-slot array. -/
def settleAll (n : Nat) (compute : Nat → α) (order : List Nat) : List (Option α) :=
  order.foldl (fun acc i => acc.set i (some (compute i))) (List.replicate n none)

/-- The outcome of fan-out leg `i`: `callOpenRouter` on model `i` of the
list, wrapped by `.then`/`.catch` into a `LegResult`. -/
def compareLeg (messages : JsArr Msg) (ms : List String) (mt tp : ℚ)
    (oracle : Nat → AxiosOutcome) (i : Nat) : LegResult :=
  mkLeg (ms.getD i "") (callOpenRouter messages (ms.getD i "") mt tp (oracle i)).1

/-- The `results` array of a validated compare request: every leg settles
(in completion order `order`) into its own slot. -/
def compareResults (messages : JsArr Msg) (ms : List String) (mt tp : ℚ)
    (oracle : Nat → AxiosOutcome) (order : List Nat) : List LegResult :=
  (settleAll ms.length (compareLeg messages ms mt tp oracle) order).map (fun o => o.getD default)

/-- The upstream requests issued by a validated compare request: the legs
are launched synchronously in list order, before any completes. -/
def compareCalls (messages : JsArr Msg) (ms : List String) (mt tp : ℚ)
    (oracle : Nat → AxiosOutcome) : List UpstreamReq :=
  (List.range ms.length).flatMap fun i =>
    (callOpenRouter messages (ms.getD i "") mt tp (oracle i)).2

/-- The `POST /api/compare` handler.  `oracle i` is the upstream outcome
of leg `i`; `order` is the order in which the legs complete.  Returns the
response and the list of upstream requests issued (legs are launched in
list order, before any completes). -/
def compareHandler (cfg : Config) (body : CompareBody) (oracle : Nat → AxiosOutcome)
    (order : List Nat) : CompareResp × List UpstreamReq :=
  if body.messages.invalid then
    (.err 400 .InvalidRequest "Messages array is required and must not be empty", [])
  else if body.models.invalid then
    (.err 400 .InvalidRequest "Models array is required for compare mode", [])
  else
    match body.models with
    | .arr ms =>
      if ms.length > 5 then
        (.err 400 .TooManyModels "Maximum 5 models allowed in compare mode", [])
      else
        match body.messages with
        | .arr xs =>
          match xs.find? (fun m => !msgFormatOk m) with
          | some _ =>
            (.err 400 .InvalidMessage "Each message must have role and content fields", [])
          | none =>
            if !jsTruthyStr cfg.apiKey then
              (.err 500 .ConfigurationError "OpenRouter API key not configured", [])
            else
              let mt := validatedMaxTokens body.max_tokens
              let tp := validatedTemperature body.temperature
              (.ok true (compareResults body.messages ms mt tp oracle order),
               compareCalls body.messages ms mt tp oracle)
        | _ => (.err 400 .InvalidRequest "Messages array is required and must not be empty", [])
    | _ => (.err 400 .InvalidRequest "Models array is required for compare mode", [])

/-! ## Helper lemmas -/

theorem validateMessages_eq_none (xs : List Msg) :
    validateMessages xs = none ↔ ∀ m ∈ xs, msgFormatOk m = true ∧ roleAllowed m = true := by
  unfold validateMessages
  rw [List.findSome?_eq_none_iff]
  constructor
  · intro h m hm
    have := h m hm
    by_cases h1 : msgFormatOk m
    · by_cases h2 : roleAllowed m
      · exact ⟨h1, h2⟩
      · simp [h1, h2] at this
    · simp [h1] at this
  · intro h m hm
    obtain ⟨h1, h2⟩ := h m hm
    simp [h1, h2]

theorem validateMessages_role_bad (xs : List Msg)
    (hfmt : ∀ m ∈ xs, msgFormatOk m = true)
    (hbad : ∃ m ∈ xs, roleAllowed m = false) :
    validateMessages xs = some "Message role must be user, assistant, or system" := by
  induction xs with
  | nil => obtain ⟨m, hm, _⟩ := hbad; cases hm
  | cons a rest ih =>
    have hafmt : msgFormatOk a = true := hfmt a (List.mem_cons_self a rest)
    unfold validateMessages
    rw [List.findSome?_cons]
    by_cases har : roleAllowed a
    · have : (if !msgFormatOk a then some "Each message must have role and content"
          else if !roleAllowed a then some "Message role must be user, assistant, or system"
          else none) = none := by simp [hafmt, har]
      rw [this]
      have hrest : ∃ m ∈ rest, roleAllowed m = false := by
        obtain ⟨m, hm, hr⟩ := hbad
        rcases List.mem_cons.mp hm with h | h
        · subst h; rw [har] at hr; cases hr
        · exact ⟨m, h, hr⟩
      exact ih (fun m hm => hfmt m (List.mem_cons_of_mem a hm)) hrest
    · simp [hafmt, har]

theorem foldl_set_length {β : Type} (w : Nat → β) (order : List Nat) (acc : List β) :
    (order.foldl (fun a j => a.set j (w j)) acc).length = acc.length := by
  induction order generalizing acc with
  | nil => rfl
  | cons j rest ih => simp [List.foldl_cons, ih]

theorem foldl_set_getElem_not_mem {β : Type} (w : Nat → β) (order : List Nat)
    (acc : List β) (i : Nat) (h : i ∉ order) :
    (order.foldl (fun a j => a.set j (w j)) acc)[i]? = acc[i]? := by
  induction order generalizing acc with
  | nil => rfl
  | cons j rest ih =>
    rw [List.foldl_cons, ih _ (fun hm => h (List.mem_cons_of_mem _ hm))]
    exact List.getElem?_set_ne (fun hji => h (by rw [← hji]; exact List.mem_cons_self _ _))

theorem foldl_set_getElem_mem {β : Type} (w : Nat → β) (order : List Nat)
    (acc : List β) (i : Nat) (hm : i ∈ order) (hl : i < acc.length) :
    (order.foldl (fun a j => a.set j (w j)) acc)[i]? = some (w i) := by
  induction order generalizing acc with
  | nil => cases hm
  | cons j rest ih =>
    rw [List.foldl_cons]
    by_cases hr : i ∈ rest
    · exact ih _ hr (by simpa using hl)
    · have hij : i = j := by
        rcases List.mem_cons.mp hm with h | h
        · exact h
        · exact absurd h hr
      subst hij
      rw [foldl_set_getElem_not_mem w rest _ i hr]
      exact List.getElem?_set_self hl

theorem settleAll_length {β : Type} (n : Nat) (compute : Nat → β) (order : List Nat) :
    (settleAll n compute order).length = n := by
  unfold settleAll
  rw [foldl_set_length]
  exact List.length_replicate ..

theorem settleAll_getElem {β : Type} (n : Nat) (compute : Nat → β) (order : List Nat)
    (hperm : order.Perm (List.range n)) (i : Nat) (hi : i < n) :
    (settleAll n compute order)[i]? = some (some (compute i)) := by
  have hm : i ∈ order := hperm.mem_iff.mpr (List.mem_range.mpr hi)
  unfold settleAll
  exact foldl_set_getElem_mem (fun j => some (compute j)) order _ i hm (by simpa using hi)

theorem compareResults_length (messages : JsArr Msg) (ms : List String) (mt tp : ℚ)
    (oracle : Nat → AxiosOutcome) (order : List Nat) :
    (compareResults messages ms mt tp oracle order).length = ms.length := by
  unfold compareResults
  rw [List.length_map, settleAll_length]

theorem compareResults_getElem (messages : JsArr Msg) (ms : List String) (mt tp : ℚ)
    (oracle : Nat → AxiosOutcome) (order : List Nat)
    (hperm : order.Perm (List.range ms.length)) (i : Nat) (hi : i < ms.length) :
    (compareResults messages ms mt tp oracle order)[i]? =
      some (compareLeg messages ms mt tp oracle i) := by
  unfold compareResults
  rw [List.getElem?_map, settleAll_getElem _ _ _ hperm i hi]
  rfl

theorem callOpenRouter_calls_mem (messages : JsArr Msg) (model : String)
    (mt tp : ℚ) (outcome : AxiosOutcome) (r : UpstreamReq)
    (hr : r ∈ (callOpenRouter messages model mt tp outcome).2) :
    r.model = model ∧ r.max_tokens = mt ∧ r.temperature = tp := by
  unfold callOpenRouter at hr
  repeat' split at hr
  all_goals simp_all

theorem chatHandler_calls_mem (cfg : Config) (body : ChatBody) (outcome : AxiosOutcome)
    (r : UpstreamReq) (hr : r ∈ (chatHandler cfg body outcome).2) :
    r.model = selectedModel body.model cfg.defaultModel ∧
    r.max_tokens = validatedMaxTokens body.max_tokens ∧
    r.temperature = validatedTemperature body.temperature := by
  unfold chatHandler at hr
  repeat' split at hr
  all_goals first
    | exact callOpenRouter_calls_mem _ _ _ _ _ r hr
    | simp_all

theorem compareHandler_valid (cfg : Config) (body : CompareBody)
    (oracle : Nat → AxiosOutcome) (order : List Nat) (xs : List Msg) (ms : List String)
    (hxs : body.messages = .arr xs) (hms : body.models = .arr ms)
    (hne : xs ≠ []) (hfmt : ∀ m ∈ xs, msgFormatOk m = true)
    (hmne : ms ≠ []) (hm5 : ms.length ≤ 5)
    (hkey : jsTruthyStr cfg.apiKey = true) :
    compareHandler cfg body oracle order =
      (.ok true (compareResults body.messages ms (validatedMaxTokens body.max_tokens)
          (validatedTemperature body.temperature) oracle order),
       compareCalls body.messages ms (validatedMaxTokens body.max_tokens)
          (validatedTemperature body.temperature) oracle) := by
  have hf : xs.find? (fun m => !msgFormatOk m) = none :=
    List.find?_eq_none.mpr (by intro m hm; simp [hfmt m hm])
  have h5 : ¬ (ms.length > 5) := by omega
  unfold compareHandler
  rw [hxs, hms]
  simp [JsArr.invalid, hne, hmne, h5, hf, hkey]

theorem compareHandler_calls_mem (cfg : Config) (body : CompareBody)
    (oracle : Nat → AxiosOutcome) (order : List Nat) (r : UpstreamReq)
    (hr : r ∈ (compareHandler cfg body oracle order).2) :
    r.max_tokens = validatedMaxTokens body.max_tokens ∧
    r.temperature = validatedTemperature body.temperature := by
  unfold compareHandler at hr
  repeat' split at hr
  all_goals first
    | (simp only [compareCalls, List.mem_flatMap] at hr
       obtain ⟨i, _, hri⟩ := hr
       exact ⟨(callOpenRouter_calls_mem _ _ _ _ _ r hri).2.1,
              (callOpenRouter_calls_mem _ _ _ _ _ r hri).2.2⟩)
    | simp_all

theorem compareHandler_cases (cfg : Config) (body : CompareBody)
    (oracle : Nat → AxiosOutcome) (order : List Nat) :
    (∃ s k m, compareHandler cfg body oracle order = (.err s k m, []) ∧
       (k = .InvalidRequest ∨ k = .TooManyModels ∨ k = .InvalidMessage ∨
        k = .ConfigurationError)) ∨
    (∃ rs calls, compareHandler cfg body oracle order = (.ok true rs, calls)) := by
  unfold compareHandler
  repeat' split
  all_goals first
    | (left; exact ⟨_, _, _, rfl, by simp⟩)
    | (right; exact ⟨_, _, rfl⟩)

theorem compareHandler_err (cfg : Config) (body : CompareBody)
    (oracle : Nat → AxiosOutcome) (order : List Nat) (s : Nat) (k : ErrorKind) (m : String)
    (h : (compareHandler cfg body oracle order).1 = .err s k m) :
    (compareHandler cfg body oracle order).2 = [] ∧
    (k = .InvalidRequest ∨ k = .TooManyModels ∨ k = .InvalidMessage ∨
     k = .ConfigurationError) := by
  rcases compareHandler_cases cfg body oracle order with ⟨s', k', m', heq, hk⟩ | ⟨rs, calls, heq⟩
  · rw [heq] at h ⊢
    obtain ⟨h1, h2, h3⟩ := CompareResp.err.inj h
    subst h2
    exact ⟨rfl, hk⟩
  · rw [heq] at h
    cases h

theorem mkLeg_model (model : String) (r : Except CallErr CallOk) :
    (mkLeg model r).model = model := by
  cases r <;> rfl

theorem compareLeg_model (messages : JsArr Msg) (ms : List String) (mt tp : ℚ)
    (oracle : Nat → AxiosOutcome) (i : Nat) :
    (compareLeg messages ms mt tp oracle i).model = ms.getD i "" := by
  unfold compareLeg
  exact mkLeg_model _ _

theorem chatHandler_valid (cfg : Config) (body : ChatBody) (outcome : AxiosOutcome)
    (xs : List Msg) (hxs : body.messages = .arr xs) (hne : xs ≠ [])
    (hfmt : ∀ m ∈ xs, msgFormatOk m = true) (hkey : jsTruthyStr cfg.apiKey = true) :
    chatHandler cfg body outcome =
      (match (callOpenRouter body.messages (selectedModel body.model cfg.defaultModel)
          (validatedMaxTokens body.max_tokens) (validatedTemperature body.temperature)
          outcome).1 with
       | .ok r => .ok true r.message (selectedModel body.model cfg.defaultModel)
           r.usage r.finish_reason
       | .error e => .err (classify e).1 (classify e).2.1 (classify e).2.2,
       (callOpenRouter body.messages (selectedModel body.model cfg.defaultModel)
          (validatedMaxTokens body.max_tokens) (validatedTemperature body.temperature)
          outcome).2) := by
  have hf : xs.find? (fun m => !msgFormatOk m) = none :=
    List.find?_eq_none.mpr (by intro m hm; simp [hfmt m hm])
  unfold chatHandler
  rw [hxs]
  simp [JsArr.invalid, hne, hf, hkey]

theorem validatedMaxTokens_nonpos (x : ℚ) (hx : x ≤ 0) :
    validatedMaxTokens (some x) = 1000 := by
  show (if x ≠ 0 ∧ 0 < x then min x 4000 else 1000) = 1000
  rw [if_neg]
  rintro ⟨-, h2⟩
  exact absurd h2 (not_lt.mpr hx)

theorem validatedMaxTokens_pos (x : ℚ) (hx : 0 < x) :
    validatedMaxTokens (some x) = min x 4000 := by
  show (if x ≠ 0 ∧ 0 < x then min x 4000 else 1000) = min x 4000
  rw [if_pos ⟨ne_of_gt hx, hx⟩]

theorem validatedTemperature_mem_Icc (t : ℚ) :
    0 ≤ validatedTemperature (some t) ∧ validatedTemperature (some t) ≤ 2 := by
  unfold validatedTemperature
  exact ⟨le_max_left _ _, max_le (by norm_num) (min_le_right _ _)⟩

/-! ## Claim theorems -/

/-- C7: for every chat or compare request whose `messages` field is
missing, not an array, or an empty array, the request is rejected with
status 400 and kind `InvalidRequest` (`error: "Invalid request"`), and
the list of upstream calls made is empty. -/
theorem missing_conversation_rejected (cfg : Config) (cbody : ChatBody)
    (pbody : CompareBody) (outcome : AxiosOutcome) (oracle : Nat → AxiosOutcome)
    (order : List Nat) (hc : cbody.messages.invalid = true)
    (hp : pbody.messages.invalid = true) :
    chatHandler cfg cbody outcome =
      (.err 400 .InvalidRequest "Messages array is required and must not be empty", []) ∧
    compareHandler cfg pbody oracle order =
      (.err 400 .InvalidRequest "Messages array is required and must not be empty", []) := by
  constructor
  · unfold chatHandler; simp [hc]
  · unfold compareHandler; simp [hp]

/-- Witness for C7: a chat body with `messages` missing and a compare
body with an empty `messages` array are both rejected with 400
`Invalid request` and zero upstream calls. -/
theorem missing_conversation_rejected_witness :
    chatHandler ⟨some "k", "d"⟩ ⟨.missing, none, none, none⟩ (.ok ⟨none, none, none⟩) =
      (.err 400 .InvalidRequest "Messages array is required and must not be empty", []) ∧
    compareHandler ⟨some "k", "d"⟩ ⟨.arr [], .arr ["a"], none, none⟩
        (fun _ => .ok ⟨none, none, none⟩) [] =
      (.err 400 .InvalidRequest "Messages array is required and must not be empty", []) := by
  have h := missing_conversation_rejected ⟨some "k", "d"⟩ ⟨.missing, none, none, none⟩
    ⟨.arr [], .arr ["a"], none, none⟩ (.ok ⟨none, none, none⟩)
    (fun _ => .ok ⟨none, none, none⟩) [] (by decide) (by decide)
  exact h

/-- C8: when the upstream bearer credential is not configured (absent or
empty, which is falsy), every chat and every compare request with an
otherwise-valid body fails fast with 500 `ConfigurationError`
(`error: "Server configuration error"`) and no upstream call is made. -/
theorem missing_api_key_fail_fast (cfg : Config) (cbody : ChatBody) (pbody : CompareBody)
    (outcome : AxiosOutcome) (oracle : Nat → AxiosOutcome) (order : List Nat)
    (xs ys : List Msg) (ms : List String)
    (hkey : jsTruthyStr cfg.apiKey = false)
    (hcx : cbody.messages = .arr xs) (hxne : xs ≠ [])
    (hxf : ∀ m ∈ xs, msgFormatOk m = true)
    (hpy : pbody.messages = .arr ys) (hyne : ys ≠ [])
    (hyf : ∀ m ∈ ys, msgFormatOk m = true)
    (hpm : pbody.models = .arr ms) (hmne : ms ≠ []) (hm5 : ms.length ≤ 5) :
    chatHandler cfg cbody outcome =
      (.err 500 .ConfigurationError "OpenRouter API key not configured", []) ∧
    compareHandler cfg pbody oracle order =
      (.err 500 .ConfigurationError "OpenRouter API key not configured", []) := by
  have hfx : xs.find? (fun m => !msgFormatOk m) = none :=
    List.find?_eq_none.mpr (by intro m hm; simp [hxf m hm])
  have hfy : ys.find? (fun m => !msgFormatOk m) = none :=
    List.find?_eq_none.mpr (by intro m hm; simp [hyf m hm])
  have h5 : ¬ (ms.length > 5) := by omega
  constructor
  · unfold chatHandler; rw [hcx]; simp [JsArr.invalid, hxne, hfx, hkey]
  · unfold compareHandler; rw [hpy, hpm]; simp [JsArr.invalid, hyne, hmne, h5, hfy, hkey]

/-- Witness for C8: with no configured key, a well-formed chat and
compare request each return 500 `Server configuration error` and make
zero upstream calls. -/
theorem missing_api_key_fail_fast_witness :
    chatHandler ⟨none, "d"⟩ ⟨.arr [⟨some "user", some "hi"⟩], none, none, none⟩
        (.ok ⟨none, none, none⟩) =
      (.err 500 .ConfigurationError "OpenRouter API key not configured", []) ∧
    compareHandler ⟨none, "d"⟩ ⟨.arr [⟨some "user", some "hi"⟩], .arr ["a"], none, none⟩
        (fun _ => .ok ⟨none, none, none⟩) [0] =
      (.err 500 .ConfigurationError "OpenRouter API key not configured", []) := by
  exact missing_api_key_fail_fast ⟨none, "d"⟩
    ⟨.arr [⟨some "user", some "hi"⟩], none, none, none⟩
    ⟨.arr [⟨some "user", some "hi"⟩], .arr ["a"], none, none⟩
    (.ok ⟨none, none, none⟩) (fun _ => .ok ⟨none, none, none⟩) [0]
    [⟨some "user", some "hi"⟩] [⟨some "user", some "hi"⟩] ["a"]
    (by decide) rfl (by decide) (by decide) rfl (by decide) (by decide) rfl
    (by decide) (by decide)

/-- C1: for every compare request whose models list has length N in [1,5]
(and which passes the remaining validations, so that a results sequence
exists), the results sequence has length exactly N, the result at index i
carries model `models[i]`, and in fact `results.map model = models` — for
every completion order (any permutation of the leg indices) of the
individual upstream calls. -/
theorem compare_preserves_model_order (cfg : Config) (body : CompareBody)
    (oracle : Nat → AxiosOutcome) (order : List Nat) (xs : List Msg) (ms : List String)
    (hxs : body.messages = .arr xs) (hms : body.models = .arr ms)
    (hne : xs ≠ []) (hfmt : ∀ m ∈ xs, msgFormatOk m = true)
    (hlen1 : 1 ≤ ms.length) (hlen5 : ms.length ≤ 5)
    (hkey : jsTruthyStr cfg.apiKey = true)
    (hperm : order.Perm (List.range ms.length)) :
    ∃ rs, (compareHandler cfg body oracle order).1 = .ok true rs ∧
      rs.length = ms.length ∧
      (∀ i, i < ms.length → (rs[i]?).map LegResult.model = ms[i]?) ∧
      rs.map LegResult.model = ms := by
  have hmne : ms ≠ [] := by intro h; subst h; simp at hlen1
  have hidx : ∀ i, i < ms.length →
      ((compareResults body.messages ms (validatedMaxTokens body.max_tokens)
        (validatedTemperature body.temperature) oracle order)[i]?).map LegResult.model
      = ms[i]? := by
    intro i hi
    rw [compareResults_getElem _ _ _ _ _ _ hperm i hi]
    simp [compareLeg_model, List.getElem?_eq_getElem hi]
  rw [compareHandler_valid cfg body oracle order xs ms hxs hms hne hfmt hmne hlen5 hkey]
  refine ⟨_, rfl, compareResults_length _ _ _ _ _ _, hidx, ?_⟩
  apply List.ext_getElem?
  intro i
  by_cases hi : i < ms.length
  · rw [List.getElem?_map]
    exact hidx i hi
  · rw [List.getElem?_map]
    have h1 : (compareResults body.messages ms (validatedMaxTokens body.max_tokens)
        (validatedTemperature body.temperature) oracle order)[i]? = none := by
      apply List.getElem?_eq_none
      rw [compareResults_length]
      omega
    rw [h1, List.getElem?_eq_none (by omega)]
    rfl

/-- Witness for C1: two models, the second leg completing before the first;
the results keep the request order `["a", "b"]`. -/
theorem compare_preserves_model_order_witness :
    ∃ rs, (compareHandler ⟨some "k", "d"⟩
        ⟨.arr [⟨some "user", some "hi"⟩], .arr ["a", "b"], none, none⟩
        (fun _ => .ok ⟨some [⟨"r", none⟩], none, none⟩) [1, 0]).1 = .ok true rs ∧
      rs.length = 2 ∧
      (∀ i, i < 2 → (rs[i]?).map LegResult.model = (["a", "b"] : List String)[i]?) ∧
      rs.map LegResult.model = ["a", "b"] := by
  have h := compare_preserves_model_order ⟨some "k", "d"⟩
    ⟨.arr [⟨some "user", some "hi"⟩], .arr ["a", "b"], none, none⟩
    (fun _ => .ok ⟨some [⟨"r", none⟩], none, none⟩) [1, 0]
    [⟨some "user", some "hi"⟩] ["a", "b"] rfl rfl (by decide) (by decide)
    (by decide) (by decide) (by decide) (by decide)
  simpa using h

/-- C2: for every validated compare request, the response is the
top-level `success: true` object even when legs fail; a succeeding leg
yields a ModelResult with `success: true`, a failing leg yields
`success: false` with a non-empty message, `error: true` and an
`error_type`; and whenever the compare endpoint answers with an error
object at all, zero upstream calls were made and the kind is one of the
validation kinds or the missing-key configuration error. -/
theorem compare_tolerates_leg_failures (cfg : Config) (body : CompareBody)
    (oracle : Nat → AxiosOutcome) (order : List Nat) (xs : List Msg) (ms : List String)
    (hxs : body.messages = .arr xs) (hms : body.models = .arr ms)
    (hne : xs ≠ []) (hfmt : ∀ m ∈ xs, msgFormatOk m = true)
    (hlen1 : 1 ≤ ms.length) (hlen5 : ms.length ≤ 5)
    (hkey : jsTruthyStr cfg.apiKey = true)
    (hperm : order.Perm (List.range ms.length)) :
    (∃ rs, (compareHandler cfg body oracle order).1 = .ok true rs ∧
      ∀ i, i < ms.length → ∃ r, rs[i]? = some r ∧
        (∀ okr, (callOpenRouter body.messages (ms.getD i "")
            (validatedMaxTokens body.max_tokens) (validatedTemperature body.temperature)
            (oracle i)).1 = .ok okr →
          r.success = true ∧ r.message = okr.message) ∧
        (∀ e, (callOpenRouter body.messages (ms.getD i "")
            (validatedMaxTokens body.max_tokens) (validatedTemperature body.temperature)
            (oracle i)).1 = .error e →
          r.success = false ∧ r.error = true ∧ r.message ≠ "" ∧
          r.error_type.isSome = true)) ∧
    (∀ cfg' body' oracle' order' s k m,
      (compareHandler cfg' body' oracle' order' :
          CompareResp × List UpstreamReq).1 = .err s k m →
      (compareHandler cfg' body' oracle' order').2 = [] ∧
      (k = .InvalidRequest ∨ k = .TooManyModels ∨ k = .InvalidMessage ∨
       k = .ConfigurationError)) := by
  constructor
  · have hmne : ms ≠ [] := by intro h; subst h; simp at hlen1
    rw [compareHandler_valid cfg body oracle order xs ms hxs hms hne hfmt hmne hlen5 hkey]
    refine ⟨_, rfl, ?_⟩
    intro i hi
    refine ⟨_, compareResults_getElem _ _ _ _ _ _ hperm i hi, ?_, ?_⟩
    · intro okr hok
      unfold compareLeg
      rw [hok]
      exact ⟨rfl, rfl⟩
    · intro e herr
      unfold compareLeg
      rw [herr]
      refine ⟨rfl, rfl, ?_, rfl⟩
      unfold mkLeg jsOrS
      by_cases hm : e.message = "" <;> simp [hm]
  · intro cfg' body' oracle' order' s k m h
    exact compareHandler_err cfg' body' oracle' order' s k m h

/-- Witness for C2: model "a" succeeds and model "b" fails with a
transport error; the response is top-level `success: true`,
`results[0].success = true` and `results[1].success = false` with an
`error_type`. -/
theorem compare_tolerates_leg_failures_witness :
    ∃ rs, (compareHandler ⟨some "k", "d"⟩
        ⟨.arr [⟨some "user", some "hi"⟩], .arr ["a", "b"], none, none⟩
        (fun i => if i = 0 then .ok ⟨some [⟨"r", none⟩], none, none⟩
         else .transport "ECONNREFUSED" "connect ECONNREFUSED") [1, 0]).1 = .ok true rs ∧
      (∃ r0, rs[0]? = some r0 ∧ r0.success = true) ∧
      (∃ r1, rs[1]? = some r1 ∧ r1.success = false ∧ r1.error_type.isSome = true) := by
  obtain ⟨⟨rs, hok, hleg⟩, -⟩ := compare_tolerates_leg_failures ⟨some "k", "d"⟩
    ⟨.arr [⟨some "user", some "hi"⟩], .arr ["a", "b"], none, none⟩
    (fun i => if i = 0 then .ok ⟨some [⟨"r", none⟩], none, none⟩
     else .transport "ECONNREFUSED" "connect ECONNREFUSED") [1, 0]
    [⟨some "user", some "hi"⟩] ["a", "b"] rfl rfl (by decide) (by decide)
    (by decide) (by decide) (by decide) (by decide)
  obtain ⟨r0, h0, h0ok, -⟩ := hleg 0 (by decide)
  obtain ⟨r1, h1, -, h1err⟩ := hleg 1 (by decide)
  have hr1 := h1err (.transport "ECONNREFUSED" "connect ECONNREFUSED") rfl
  exact ⟨rs, hok, ⟨r0, h0, (h0ok ⟨"r", "\x7b\x7d", none⟩ rfl).1⟩,
    ⟨r1, h1, hr1.1, hr1.2.2.2⟩⟩

/-- Modelled from the spec: the Error Classifier table of section 4.4,
read with "carrying a status" meaning a truthy (non-zero) upstream
status.  Gives the client-facing (status, kind) pair for each upstream
failure. -/
def specErrorTable : CallErr → Nat × ErrorKind
  | .upstream s _ =>
    if s = 401 then (401, .AuthenticationFailed)
    else if s = 402 then (402, .PaymentRequired)
    else if s = 404 then (404, .ModelNotFound)
    else if s = 429 then (429, .RateLimitExceeded)
    else if s = 400 then (400, .BadRequest)
    else if s ≠ 0 then (s, .UpstreamError)
    else (500, .InternalError)
  | .transport c _ =>
    if c = "ECONNABORTED" ∨ c = "ETIMEDOUT" then (504, .GatewayTimeout)
    else if c = "ECONNREFUSED" ∨ c = "ENOTFOUND" then (503, .ServiceUnavailable)
    else (500, .InternalError)
  | .badMessages _ => (500, .InternalError)
  | .unexpectedFormat => (500, .InternalError)

/-- C3 counterexample: the chat-path classifier maps a transport timeout
to 504 `GatewayTimeout`, but the compare fan-out leg for the very same
failure embeds `error_type: "unknown"` (the raw status-or-unknown),
not the mapped 504 — so the mapping is not applied identically
per-item in the compare path. -/
theorem classifier_not_identical_in_compare :
    (chatHandler ⟨some "k", "d"⟩ ⟨.arr [⟨some "user", some "hi"⟩], some "a", none, none⟩
        (.transport "ECONNABORTED" "timeout of 60000ms exceeded")).1 =
      .err 504 .GatewayTimeout "Request to OpenRouter API timed out" ∧
    (compareHandler ⟨some "k", "d"⟩
        ⟨.arr [⟨some "user", some "hi"⟩], .arr ["a"], none, none⟩
        (fun _ => .transport "ECONNABORTED" "timeout of 60000ms exceeded") [0]).1 =
      .ok true [⟨false, "a", "timeout of 60000ms exceeded", none, none, true,
        some .unknown⟩] ∧
    some ErrType.unknown ≠ some (ErrType.stat 504) := by
  refine ⟨by decide, by decide, by decide⟩

/-- C3 amended: the flat lookup of the table holds on the single-chat
path exactly as tabulated (`classify` refines the table of the spec row by
row); in the compare fan-out the mapping is not applied — a failing leg
instead embeds the raw upstream numeric status as `error_type` (or
`"unknown"` when the failure carries no truthy status) together with the
message of the failure. -/
theorem error_classifier_flat_lookup (e : CallErr) (model : String) :
    ((classify e).1, (classify e).2.1) = specErrorTable e ∧
    (mkLeg model (.error e)).error_type = some (match e.statusField with
      | some s => if s ≠ 0 then .stat s else .unknown
      | none => .unknown) ∧
    (mkLeg model (.error e)).message = jsOrS e.message "Request failed" := by
  refine ⟨?_, rfl, rfl⟩
  cases e with
  | upstream s dm =>
    simp only [classify, specErrorTable]
    by_cases h1 : s = 401
    · subst h1; simp
    · by_cases h2 : s = 402
      · subst h2; simp
      · by_cases h3 : s = 404
        · subst h3; simp
        · by_cases h4 : s = 429
          · subst h4; simp
          · by_cases h5 : s = 400
            · subst h5; simp
            · by_cases h6 : s = 0
              · subst h6; simp
              · simp [h1, h2, h3, h4, h5, h6]
  | transport c m =>
    simp only [classify, specErrorTable]
    split_ifs <;> rfl
  | badMessages m => rfl
  | unexpectedFormat => rfl

/-- C4: for every chat request and compare request that issued an
upstream request (`r` from the chat handler, `q` from the compare
handler), the effective parameters sent upstream satisfy: `max_tokens`
equals 1000 when the field is absent or non-positive and
`min(max_tokens, 4000)` otherwise; `temperature` equals 0.7 when absent
and is clamped into [0, 2] otherwise; and the chat model equals the
configured default identifier when absent. -/
theorem params_normalization (cfg : Config) (cbody : ChatBody) (pbody : CompareBody)
    (outcome : AxiosOutcome) (oracle : Nat → AxiosOutcome) (order : List Nat)
    (r q : UpstreamReq)
    (hr : r ∈ (chatHandler cfg cbody outcome).2)
    (hq : q ∈ (compareHandler cfg pbody oracle order).2) :
    ((cbody.max_tokens = none → r.max_tokens = 1000) ∧
     (∀ x, cbody.max_tokens = some x → x ≤ 0 → r.max_tokens = 1000) ∧
     (∀ x, cbody.max_tokens = some x → 0 < x → r.max_tokens = min x 4000) ∧
     (cbody.temperature = none → r.temperature = 7/10) ∧
     (∀ t, cbody.temperature = some t → r.temperature = max 0 (min t 2) ∧
        0 ≤ r.temperature ∧ r.temperature ≤ 2) ∧
     (cbody.model = none → r.model = cfg.defaultModel)) ∧
    ((pbody.max_tokens = none → q.max_tokens = 1000) ∧
     (∀ x, pbody.max_tokens = some x → x ≤ 0 → q.max_tokens = 1000) ∧
     (∀ x, pbody.max_tokens = some x → 0 < x → q.max_tokens = min x 4000) ∧
     (pbody.temperature = none → q.temperature = 7/10) ∧
     (∀ t, pbody.temperature = some t → q.temperature = max 0 (min t 2) ∧
        0 ≤ q.temperature ∧ q.temperature ≤ 2)) := by
  obtain ⟨hrm, hrmt, hrt⟩ := chatHandler_calls_mem cfg cbody outcome r hr
  obtain ⟨hqmt, hqt⟩ := compareHandler_calls_mem cfg pbody oracle order q hq
  constructor
  · refine ⟨?_, ?_, ?_, ?_, ?_, ?_⟩
    · intro h; rw [hrmt, h]; rfl
    · intro x h hx; rw [hrmt, h]; exact validatedMaxTokens_nonpos x hx
    · intro x h hx; rw [hrmt, h]; exact validatedMaxTokens_pos x hx
    · intro h; rw [hrt, h]; rfl
    · intro t h
      rw [hrt, h]
      exact ⟨rfl, validatedTemperature_mem_Icc t⟩
    · intro h; rw [hrm, h]; rfl
  · refine ⟨?_, ?_, ?_, ?_, ?_⟩
    · intro h; rw [hqmt, h]; rfl
    · intro x h hx; rw [hqmt, h]; exact validatedMaxTokens_nonpos x hx
    · intro x h hx; rw [hqmt, h]; exact validatedMaxTokens_pos x hx
    · intro h; rw [hqt, h]; rfl
    · intro t h
      rw [hqt, h]
      exact ⟨rfl, validatedTemperature_mem_Icc t⟩

/-- Witness for C4: a chat request with `max_tokens = 999999` and
`temperature = 5` is sent upstream with `max_tokens = 4000` and
`temperature = 2`; a compare request with `max_tokens` absent and
`temperature = -1` is sent upstream with `max_tokens = 1000` and
`temperature = 0`. -/
theorem params_normalization_witness :
    ∃ r q : UpstreamReq,
      r ∈ (chatHandler ⟨some "k", "d"⟩
        ⟨.arr [⟨some "user", some "hi"⟩], none, some 999999, some 5⟩
        (.ok ⟨none, none, none⟩)).2 ∧
      q ∈ (compareHandler ⟨some "k", "d"⟩
        ⟨.arr [⟨some "user", some "hi"⟩], .arr ["a"], none, some (-1)⟩
        (fun _ => .ok ⟨none, none, none⟩) [0]).2 ∧
      r.max_tokens = 4000 ∧ r.temperature = 2 ∧ r.model = "d" ∧
      q.max_tokens = 1000 ∧ q.temperature = 0 := by
  refine ⟨⟨"d", [⟨some "user", some "hi"⟩], 4000, 2⟩,
          ⟨"a", [⟨some "user", some "hi"⟩], 1000, 0⟩, ?_, ?_, ?_⟩
  · decide
  · decide
  · have h := params_normalization ⟨some "k", "d"⟩
      ⟨.arr [⟨some "user", some "hi"⟩], none, some 999999, some 5⟩
      ⟨.arr [⟨some "user", some "hi"⟩], .arr ["a"], none, some (-1)⟩
      (.ok ⟨none, none, none⟩) (fun _ => .ok ⟨none, none, none⟩) [0]
      ⟨"d", [⟨some "user", some "hi"⟩], 4000, 2⟩
      ⟨"a", [⟨some "user", some "hi"⟩], 1000, 0⟩ (by decide) (by decide)
    have h1 := h.1.2.2.1 999999 rfl (by norm_num)
    have h2 := (h.1.2.2.2.2.1 5 rfl).1
    have h3 := h.1.2.2.2.2.2 rfl
    have h4 := h.2.1 rfl
    have h5 := (h.2.2.2.2.2 (-1) rfl).1
    refine ⟨by rw [h1]; norm_num, by rw [h2]; norm_num, h3, h4, by rw [h5]; norm_num⟩

/-- C9: when the upstream 2xx payload lacks the expected reply structure
(`choices` absent or empty), `callOpenRouter` fails with the
unexpected-format error and the chat endpoint returns the 500-class
`Internal server error` response (the handler is a total function that
produces a response, modelling that the process does not crash); when the
payload has the expected structure, the caller returns the extracted
reply text, the upstream-reported usage (defaulted to the empty object)
and the upstream-reported finish reason. -/
theorem unexpected_upstream_format (cfg : Config) (body : ChatBody) (xs : List Msg)
    (data : RespData) (model : String) (mt tp : ℚ)
    (hxs : body.messages = .arr xs) (hne : xs ≠ [])
    (hval : validateMessages xs = none) (hkey : jsTruthyStr cfg.apiKey = true) :
    ((data.choices = none ∨ data.choices = some []) →
      (callOpenRouter body.messages model mt tp (.ok data)).1 = .error .unexpectedFormat ∧
      (chatHandler cfg body (.ok data)).1 =
        .err 500 .InternalError "Unexpected response format from OpenRouter") ∧
    (∀ c cs, data.choices = some (c :: cs) →
      (callOpenRouter body.messages model mt tp (.ok data)).1 =
        .ok ⟨c.content, data.usage.getD "\x7b\x7d", c.finish_reason⟩) := by
  have hie : xs.isEmpty = false := by simp [hne]
  have hfmt : ∀ m ∈ xs, msgFormatOk m = true :=
    fun m hm => ((validateMessages_eq_none xs).mp hval m hm).1
  constructor
  · intro hch
    have hcall : ∀ (M : String) (T P : ℚ),
        (callOpenRouter body.messages M T P (.ok data)).1 = .error .unexpectedFormat := by
      intro M T P
      unfold callOpenRouter
      rw [hxs]
      rcases hch with h | h <;> simp [hie, hval, h]
    refine ⟨hcall model mt tp, ?_⟩
    rw [chatHandler_valid cfg body (.ok data) xs hxs hne hfmt hkey]
    rw [hcall _ _ _]
    rfl
  · intro c cs hch
    unfold callOpenRouter
    rw [hxs]
    simp [hie, hval, hch]

/-- Witness for C9: a payload with no `choices` yields the
unexpected-format error and a 500 response; a payload with one choice
yields the extracted message, usage and finish reason. -/
theorem unexpected_upstream_format_witness :
    ((callOpenRouter (.arr [⟨some "user", some "hi"⟩]) "a" 1000 1 (.ok ⟨none, some "u", none⟩)).1
        = .error .unexpectedFormat ∧
      (chatHandler ⟨some "k", "d"⟩ ⟨.arr [⟨some "user", some "hi"⟩], none, none, none⟩
        (.ok ⟨none, some "u", none⟩)).1 =
        .err 500 .InternalError "Unexpected response format from OpenRouter") ∧
    (callOpenRouter (.arr [⟨some "user", some "hi"⟩]) "a" 1000 1
        (.ok ⟨some [⟨"reply", some "stop"⟩], some "u", none⟩)).1 =
      .ok ⟨"reply", "u", some "stop"⟩ := by
  constructor
  · exact (unexpected_upstream_format ⟨some "k", "d"⟩
      ⟨.arr [⟨some "user", some "hi"⟩], none, none, none⟩ [⟨some "user", some "hi"⟩]
      ⟨none, some "u", none⟩ "a" 1000 1 rfl (by decide) (by decide) (by decide)).1
      (Or.inl rfl)
  · exact (unexpected_upstream_format ⟨some "k", "d"⟩
      ⟨.arr [⟨some "user", some "hi"⟩], none, none, none⟩ [⟨some "user", some "hi"⟩]
      ⟨some [⟨"reply", some "stop"⟩], some "u", none⟩ "a" 1000 1 rfl (by decide)
      (by decide) (by decide)).2 ⟨"reply", some "stop"⟩ [] rfl

/-- C5 counterexample: a chat request whose single message has the
role `"evil"` (outside {user, assistant, system}) is not rejected with
`InvalidMessage` (400 `Invalid message format`); it passes the endpoint
validator and is rejected by the internal check of the upstream caller,
surfacing as 500 `Internal server error` — though still with zero
upstream calls. -/
theorem invalid_role_not_invalid_message :
    chatHandler ⟨some "k", "d"⟩ ⟨.arr [⟨some "evil", some "hi"⟩], none, none, none⟩
        (.ok ⟨some [⟨"r", none⟩], none, none⟩) =
      (.err 500 .InternalError "Message role must be user, assistant, or system", []) ∧
    ErrorKind.InternalError ≠ .InvalidMessage ∧ (500 : Nat) ≠ 400 := by
  refine ⟨by decide, by decide, by decide⟩

/-- C5 amended: a message lacking a (truthy) role or content field causes
rejection with 400 `InvalidMessage` and zero upstream calls, on both
endpoints; a message whose role is outside {user, assistant, system}
passes the endpoint validator, but the own check of the upstream caller
throws before the network call — the chat endpoint surfaces this as
500 `InternalError` carrying the thrown message, the compare endpoint as
per-leg failures with a top-level success — and in every case zero
upstream calls are made, so no upstream call receives the invalid
conversation. -/
theorem message_validation_amended (cfg : Config) (cbody : ChatBody)
    (pbody : CompareBody) (outcome : AxiosOutcome) (oracle : Nat → AxiosOutcome)
    (order : List Nat) (xs : List Msg) (ms : List String) :
    (cbody.messages = .arr xs → (∃ m ∈ xs, msgFormatOk m = false) →
      chatHandler cfg cbody outcome =
        (.err 400 .InvalidMessage "Each message must have role and content fields", [])) ∧
    (pbody.messages = .arr xs → pbody.models = .arr ms → ms ≠ [] → ms.length ≤ 5 →
      (∃ m ∈ xs, msgFormatOk m = false) →
      compareHandler cfg pbody oracle order =
        (.err 400 .InvalidMessage "Each message must have role and content fields", [])) ∧
    (cbody.messages = .arr xs → (∀ m ∈ xs, msgFormatOk m = true) →
      (∃ m ∈ xs, roleAllowed m = false) → jsTruthyStr cfg.apiKey = true →
      chatHandler cfg cbody outcome =
        (.err 500 .InternalError "Message role must be user, assistant, or system", [])) ∧
    (pbody.messages = .arr xs → pbody.models = .arr ms → ms ≠ [] → ms.length ≤ 5 →
      (∀ m ∈ xs, msgFormatOk m = true) → (∃ m ∈ xs, roleAllowed m = false) →
      jsTruthyStr cfg.apiKey = true →
      (∃ rs, (compareHandler cfg pbody oracle order).1 = .ok true rs) ∧
      (compareHandler cfg pbody oracle order).2 = []) := by
  refine ⟨?_, ?_, ?_, ?_⟩
  · intro hxs hbad
    have hne : xs ≠ [] := by
      obtain ⟨m, hm, -⟩ := hbad
      exact List.ne_nil_of_mem hm
    have hfind : ∃ w, xs.find? (fun m => !msgFormatOk m) = some w := by
      rw [← Option.isSome_iff_exists, List.find?_isSome]
      obtain ⟨m, hm, h⟩ := hbad
      exact ⟨m, hm, by simp [h]⟩
    obtain ⟨w, hw⟩ := hfind
    unfold chatHandler
    rw [hxs]
    simp [JsArr.invalid, hne, hw]
  · intro hxs hms hmne hm5 hbad
    have hne : xs ≠ [] := by
      obtain ⟨m, hm, -⟩ := hbad
      exact List.ne_nil_of_mem hm
    have hfind : ∃ w, xs.find? (fun m => !msgFormatOk m) = some w := by
      rw [← Option.isSome_iff_exists, List.find?_isSome]
      obtain ⟨m, hm, h⟩ := hbad
      exact ⟨m, hm, by simp [h]⟩
    obtain ⟨w, hw⟩ := hfind
    have h5 : ¬ (ms.length > 5) := by omega
    unfold compareHandler
    rw [hxs, hms]
    simp [JsArr.invalid, hne, hmne, h5, hw]
  · intro hxs hfmt hbad hkey
    have hne : xs ≠ [] := by
      obtain ⟨m, hm, -⟩ := hbad
      exact List.ne_nil_of_mem hm
    have hie : xs.isEmpty = false := by simp [hne]
    have hv := validateMessages_role_bad xs hfmt hbad
    have hc : ∀ (M : String) (T P : ℚ),
        callOpenRouter cbody.messages M T P outcome =
          (.error (.badMessages "Message role must be user, assistant, or system"), []) := by
      intro M T P
      unfold callOpenRouter
      rw [hxs]
      simp [hie, hv]
    rw [chatHandler_valid cfg cbody outcome xs hxs hne hfmt hkey, hc _ _ _]
    rfl
  · intro hxs hms hmne hm5 hfmt hbad hkey
    have hne : xs ≠ [] := by
      obtain ⟨m, hm, -⟩ := hbad
      exact List.ne_nil_of_mem hm
    have hie : xs.isEmpty = false := by simp [hne]
    have hv := validateMessages_role_bad xs hfmt hbad
    have hc : ∀ (M : String) (T P : ℚ) (o : AxiosOutcome),
        callOpenRouter pbody.messages M T P o =
          (.error (.badMessages "Message role must be user, assistant, or system"), []) := by
      intro M T P o
      unfold callOpenRouter
      rw [hxs]
      simp [hie, hv]
    rw [compareHandler_valid cfg pbody oracle order xs ms hxs hms hne hfmt hmne hm5 hkey]
    refine ⟨⟨_, rfl⟩, ?_⟩
    show compareCalls pbody.messages ms _ _ oracle = []
    unfold compareCalls
    rw [List.flatMap_eq_nil_iff]
    intro i hi
    rw [hc _ _ _ _]

/-- Witness for the amended C5: a chat message with empty content is
rejected 400 `InvalidMessage`; a compare request whose message has role
`"evil"` answers top-level success with zero upstream calls. -/
theorem message_validation_amended_witness :
    chatHandler ⟨some "k", "d"⟩ ⟨.arr [⟨some "user", some ""⟩], none, none, none⟩
        (.ok ⟨none, none, none⟩) =
      (.err 400 .InvalidMessage "Each message must have role and content fields", []) ∧
    (∃ rs, (compareHandler ⟨some "k", "d"⟩
        ⟨.arr [⟨some "evil", some "hi"⟩], .arr ["a"], none, none⟩
        (fun _ => .ok ⟨none, none, none⟩) [0]).1 = .ok true rs) ∧
    (compareHandler ⟨some "k", "d"⟩
        ⟨.arr [⟨some "evil", some "hi"⟩], .arr ["a"], none, none⟩
        (fun _ => .ok ⟨none, none, none⟩) [0]).2 = [] := by
  have h := message_validation_amended ⟨some "k", "d"⟩
    ⟨.arr [⟨some "user", some ""⟩], none, none, none⟩
    ⟨.arr [⟨some "evil", some "hi"⟩], .arr ["a"], none, none⟩
    (.ok ⟨none, none, none⟩) (fun _ => .ok ⟨none, none, none⟩) [0]
    [⟨some "user", some ""⟩] ["a"]
  have h4 := message_validation_amended ⟨some "k", "d"⟩
    ⟨.arr [⟨some "user", some ""⟩], none, none, none⟩
    ⟨.arr [⟨some "evil", some "hi"⟩], .arr ["a"], none, none⟩
    (.ok ⟨none, none, none⟩) (fun _ => .ok ⟨none, none, none⟩) [0]
    [⟨some "evil", some "hi"⟩] ["a"]
  refine ⟨h.1 rfl ⟨⟨some "user", some ""⟩, by decide, by decide⟩, ?_⟩
  exact h4.2.2.2 rfl rfl (by decide) (by decide) (by decide)
    ⟨⟨some "evil", some "hi"⟩, by decide, by decide⟩ (by decide)

/-- C6 counterexample: a compare request with six models is rejected
before any upstream call, but with `error: "Too many models"`, not the
claimed `InvalidRequest` (`error: "Invalid request"`). -/
theorem six_models_not_invalid_request :
    compareHandler ⟨some "k", "d"⟩
        ⟨.arr [⟨some "user", some "hi"⟩], .arr ["a", "b", "c", "d", "e", "f"], none, none⟩
        (fun _ => .ok ⟨none, none, none⟩) [] =
      (.err 400 .TooManyModels "Maximum 5 models allowed in compare mode", []) ∧
    ErrorKind.TooManyModels ≠ .InvalidRequest := by
  refine ⟨by decide, by decide⟩

/-- C6 amended: a compare request whose models list is missing, not an
array, or empty is rejected with 400 `InvalidRequest`
(`error: "Invalid request"`); one whose models list has more than 5
entries is rejected with 400 and the distinct label
`error: "Too many models"`; in both cases before any upstream call
(zero upstream calls are made). -/
theorem models_validation_amended (cfg : Config) (body : CompareBody)
    (oracle : Nat → AxiosOutcome) (order : List Nat) (xs : List Msg)
    (hxs : body.messages = .arr xs) (hne : xs ≠ []) :
    (body.models.invalid = true →
      compareHandler cfg body oracle order =
        (.err 400 .InvalidRequest "Models array is required for compare mode", [])) ∧
    (∀ ms, body.models = .arr ms → ms.length > 5 →
      compareHandler cfg body oracle order =
        (.err 400 .TooManyModels "Maximum 5 models allowed in compare mode", [])) := by
  constructor
  · intro hinv
    have hmi : (JsArr.arr xs : JsArr Msg).invalid = false := by simp [JsArr.invalid, hne]
    unfold compareHandler
    rw [hxs]
    simp [hmi, hinv]
  · intro ms hms h5
    have hmne : ms ≠ [] := by
      intro h
      subst h
      simp at h5
    unfold compareHandler
    rw [hxs, hms]
    simp [JsArr.invalid, hne, hmne, h5]

/-- Witness for the amended C6: a compare request with `models`
missing is rejected 400 `Invalid request`; one with six models is
rejected 400 `Too many models`; both with zero upstream calls. -/
theorem models_validation_amended_witness :
    compareHandler ⟨some "k", "d"⟩ ⟨.arr [⟨some "user", some "hi"⟩], .missing, none, none⟩
        (fun _ => .ok ⟨none, none, none⟩) [] =
      (.err 400 .InvalidRequest "Models array is required for compare mode", []) ∧
    compareHandler ⟨some "k", "d"⟩
        ⟨.arr [⟨some "user", some "hi"⟩], .arr ["a", "b", "c", "d", "e", "f"], none, none⟩
        (fun _ => .ok ⟨none, none, none⟩) [] =
      (.err 400 .TooManyModels "Maximum 5 models allowed in compare mode", []) := by
  have h1 := models_validation_amended ⟨some "k", "d"⟩
    ⟨.arr [⟨some "user", some "hi"⟩], .missing, none, none⟩
    (fun _ => .ok ⟨none, none, none⟩) [] [⟨some "user", some "hi"⟩] rfl (by decide)
  have h2 := models_validation_amended ⟨some "k", "d"⟩
    ⟨.arr [⟨some "user", some "hi"⟩], .arr ["a", "b", "c", "d", "e", "f"], none, none⟩
    (fun _ => .ok ⟨none, none, none⟩) [] [⟨some "user", some "hi"⟩] rfl (by decide)
  exact ⟨h1.1 (by decide), h2.2 ["a", "b", "c", "d", "e", "f"] rfl (by decide)⟩

/-- C10: for every successful chat response (for any upstream outcome,
in particular whatever model identifier the upstream payload reports),
the `model` field of the response equals the model identifier supplied in
the request when a non-empty one was supplied, and the configured default
model otherwise; it is never read from the upstream payload. -/
theorem chat_response_model_echoes_request (cfg : Config) (body : ChatBody)
    (outcome : AxiosOutcome) (msg mdl usage : String) (fr : Option String)
    (h : (chatHandler cfg body outcome).1 = .ok true msg mdl usage fr) :
    (∀ m, body.model = some m → m ≠ "" → mdl = m) ∧
    (body.model = none → mdl = cfg.defaultModel) := by
  have hsel : mdl = selectedModel body.model cfg.defaultModel := by
    unfold chatHandler at h
    dsimp only at h
    repeat' split at h
    all_goals cases h
    all_goals rfl
  constructor
  · intro m hm hne
    rw [hsel, hm]
    show (if m = "" then cfg.defaultModel else m) = m
    rw [if_neg hne]
  · intro hm
    rw [hsel, hm]
    rfl

/-- Witness for C10: a request supplying model `"m"` whose upstream
payload reports a different model `"upstream-reported"` still answers
with model `"m"`. -/
theorem chat_response_model_echoes_request_witness :
    (chatHandler ⟨some "k", "d"⟩ ⟨.arr [⟨some "user", some "hi"⟩], some "m", none, none⟩
        (.ok ⟨some [⟨"r", some "stop"⟩], some "u", some "upstream-reported"⟩)).1 =
      .ok true "r" "m" "u" (some "stop") ∧ ("m" : String) = "m" := by
  refine ⟨by decide, ?_⟩
  have h := chat_response_model_echoes_request ⟨some "k", "d"⟩
    ⟨.arr [⟨some "user", some "hi"⟩], some "m", none, none⟩
    (.ok ⟨some [⟨"r", some "stop"⟩], some "u", some "upstream-reported"⟩)
    "r" "m" "u" (some "stop") (by decide)
  exact (h.1 "m" rfl (by decide)).symm

end ChatGui
